import Mathlib

/-!
# Verification of the whatsapp-scheduler repository

Shallow embedding of `node_whatsapp/send_message.cjs` (the dispatch command)
and, for the scheduling-engine claims whose Python source is not part of the
source tree, a model built from the specification.

`send_message.cjs` is invoked as `node send_message.cjs <phone> <message> [image]`.
It parses positional arguments, normalizes the phone number, creates a
wa-automate session, sends the text message, optionally resolves and sends an
image (with the message as caption), and exits 0 on success / 1 on any failure.
-/

/-- One transport send operation attempted by the command:
either `client.sendText(recipient, body)` or
`client.sendImage(recipient, content, filename, caption)`. -/
inductive SendStep where
  | text (recipient body : String)
  | image (recipient content filename caption : String)
  deriving Repr, DecidableEq

/-- The recipient identifier used by a send step. -/
def stepRecipient : SendStep → String
  | .text r _ => r
  | .image r _ _ _ => r

/-- Is this send step an image send? -/
def isImageStep : SendStep → Bool
  | .text _ _ => false
  | .image _ _ _ _ => true

/-- Observable result of one invocation of `send_message.cjs`:
the process exit code, whether the usage message was printed, whether
`wa.create()` was invoked, the transport sends attempted (in order), the
sends that completed successfully (in order), and the error message printed
by a `catch` handler, if any. -/
structure RunResult where
  exitCode : Nat
  usagePrinted : Bool
  createAttempted : Bool
  attempted : List SendStep
  delivered : List SendStep
  errorMsg : Option String
  deriving Repr, DecidableEq

/-- Environment of one invocation: the command-line arguments after the
script name (`process.argv.slice(2)`), the behaviour of the external
wa-automate transport (whether `wa.create`, `client.sendText`,
`client.sendImage` succeed, and the error messages they throw on failure),
and the state of the filesystem (`fs.existsSync`) together with `path.resolve`
(which depends on the current working directory). -/
structure Env where
  argv : List String
  createOk : Bool
  createErr : String
  sendTextOk : Bool
  textErr : String
  sendImageOk : Bool
  imageErr : String
  fileExists : String → Bool
  resolve : String → String

/-- `const cleanPhone = phone.replace(/[^\d]/g, '') + '@c.us';`
(line 21 of send_message.cjs): delete every non-digit character of the raw
phone argument and append the `@c.us` suffix. -/
def cleanPhone (phone : String) : String :=
  String.mk (phone.data.filter Char.isDigit) ++ "@c.us"

/-- `imagePath.trim()` (line 41): JavaScript `String.prototype.trim`, which
removes leading and trailing whitespace. -/
def jsTrim (s : String) : String :=
  String.mk (((s.data.dropWhile Char.isWhitespace).reverse.dropWhile Char.isWhitespace).reverse)

/-- `/^https?:\/\//.test(imagePath)` (line 43): the string starts with
`http://` or `https://`. -/
def isHttpUrl (s : String) : Bool :=
  "http://".data.isPrefixOf s.data || "https://".data.isPrefixOf s.data

/-- `path.basename(p)` for POSIX paths: the last non-empty `/`-separated
component (trailing separators ignored), or the empty string if none. -/
def basename (p : String) : String :=
  String.mk
    (((p.data.reverse.dropWhile (fun c => c == '/')).takeWhile (fun c => c != '/')).reverse)

/-- The `client.sendImage(cleanPhone, resolvedImage, path.basename(resolvedImage), message)`
call (line 49) together with the tail of the try block: on transport failure
the catch handler prints the error and exits 1; otherwise the command waits,
kills the client and exits 0. `textStep` is the already-delivered text send. -/
def attemptImage (env : Env) (textStep : SendStep) (clean message resolvedImage : String) :
    RunResult :=
  let imgStep := SendStep.image clean resolvedImage (basename resolvedImage) message
  if env.sendImageOk then
    { exitCode := 0, usagePrinted := false, createAttempted := true,
      attempted := [textStep, imgStep], delivered := [textStep, imgStep],
      errorMsg := none }
  else
    { exitCode := 1, usagePrinted := false, createAttempted := true,
      attempted := [textStep, imgStep], delivered := [textStep],
      errorMsg := some env.imageErr }

/-- The whole of `send_message.cjs`, lines 13–70:
argument check and usage message; `wa.create(...)` with its `.catch` handler
(exit 1 on initialization failure); the try block sending the text, then —
if `imagePath` is provided and non-blank after trimming — resolving the image
(URLs are passed through unchanged, local paths go through `path.resolve` and
an `fs.existsSync` check that throws `Image file not found: <resolved>`),
sending the image with the message as caption; exit 0 at the end of the try
block, exit 1 from the catch handler on any thrown error. -/
def runSendMessage (env : Env) : RunResult :=
  match env.argv with
  | phone :: message :: rest =>
    let clean := cleanPhone phone
    if env.createOk then
      if env.sendTextOk then
        let textStep := SendStep.text clean message
        match rest.head? with
        | none =>
          { exitCode := 0, usagePrinted := false, createAttempted := true,
            attempted := [textStep], delivered := [textStep], errorMsg := none }
        | some imagePath =>
          if jsTrim imagePath = "" then
            { exitCode := 0, usagePrinted := false, createAttempted := true,
              attempted := [textStep], delivered := [textStep], errorMsg := none }
          else
            if isHttpUrl imagePath then
              attemptImage env textStep clean message imagePath
            else
              let resolvedImage := env.resolve imagePath
              if env.fileExists resolvedImage then
                attemptImage env textStep clean message resolvedImage
              else
                { exitCode := 1, usagePrinted := false, createAttempted := true,
                  attempted := [textStep], delivered := [textStep],
                  errorMsg := some ("Image file not found: " ++ resolvedImage) }
      else
        { exitCode := 1, usagePrinted := false, createAttempted := true,
          attempted := [SendStep.text clean message], delivered := [],
          errorMsg := some env.textErr }
    else
      { exitCode := 1, usagePrinted := false, createAttempted := true,
        attempted := [], delivered := [], errorMsg := some env.createErr }
  | _ =>
    { exitCode := 1, usagePrinted := true, createAttempted := false,
      attempted := [], delivered := [], errorMsg := none }

/-!
## Scheduling engine (modelled from the spec)

The repository's scheduling engine (`app/scheduler.py` in the documented
folder structure) is not part of the source tree here; only the dispatch
command it invokes is. The definitions below are therefore modelled from the
specification's §3, §4.3 and §7.
-/

/-- Modelled from the spec: the Job `status` field of §3 — the source file
`app/scheduler.py` holding the scheduler is not under the source tree. -/
inductive Status where
  | PENDING
  | DUE
  | SENT
  | FAILED
  | SKIPPED
  deriving Repr, DecidableEq

/-- Modelled from the spec: the Job record of §3 (`app/scheduler.py` is not
under the source tree). `scheduled_at` is an abstract timestamp; `none` is a
blank `Scheduled Time`. -/
structure Job where
  recipient : String
  message : String
  image : Option String
  scheduled_at : Option Nat
  status : Status
  attempts : Nat
  last_error : Option String
  deriving Repr, DecidableEq

/-- Modelled from the spec: the `Outcome` of §4.2,
`{success: bool, error: optional string}`. -/
structure Outcome where
  success : Bool
  error : Option String
  deriving Repr, DecidableEq

/-- Modelled from the spec: the due-time key of §4.3 — a Job with no
`scheduled_at` is always immediately eligible, so it sorts as early as
possible. -/
def dueKey (j : Job) : Nat := j.scheduled_at.getD 0

/-- Modelled from the spec: one scan of the queue in scheduled mode (§4.3) —
among the remaining Jobs it selects the one with the earliest `scheduled_at`,
ties broken by original order (the first such element of the list), and
returns it together with the rest of the queue in unchanged order. The queue
is a list of (source row index, Job) pairs. -/
def extractDue : List (Nat × Job) → Option ((Nat × Job) × List (Nat × Job))
  | [] => none
  | x :: xs =>
    match extractDue xs with
    | none => some (x, [])
    | some (m, rest) =>
      if dueKey m.2 < dueKey x.2 then some (m, x :: rest)
      else some (x, xs)

/-- Modelled from the spec: the scheduled-mode dispatch order (§4.3),
obtained by repeatedly extracting the currently earliest due Job; the fuel
argument bounds the number of extractions by the queue length. -/
def scheduledOrderAux : Nat → List (Nat × Job) → List (Nat × Job)
  | 0, _ => []
  | Nat.succ fuel, l =>
    match extractDue l with
    | none => []
    | some (m, rest) => m :: scheduledOrderAux fuel rest

/-- Modelled from the spec: the order in which scheduled mode dispatches the
queue (§4.3). -/
def scheduledOrder (l : List (Nat × Job)) : List (Nat × Job) :=
  scheduledOrderAux l.length l

/-- Modelled from the spec: immediate mode processes all Jobs strictly in the
parser's original order, ignoring `scheduled_at` (§4.3). -/
def immediateOrder (l : List (Nat × Job)) : List (Nat × Job) := l

/-- Modelled from the spec: the per-Job dispatch step of §4.3 — a `SKIPPED`
Job is not passed to dispatch; otherwise `attempts` is incremented, a
successful Outcome sets `SENT`, a failed one sets `FAILED` and records
`last_error`. -/
def applyOutcome (o : Outcome) (j : Job) : Job :=
  if j.status = Status.SKIPPED then j
  else
    { j with
      attempts := j.attempts + 1,
      status := if o.success then Status.SENT else Status.FAILED,
      last_error := if o.success then j.last_error else o.error }

/-- Modelled from the spec: a full engine run over a queue (§4.3 steps 2–5):
each Job in turn is dispatched and its outcome recorded; a failure never
aborts the run, so every queue entry is processed. `outcome i` is the
Dispatch Gateway's terminal Outcome for the Job of source row `i`. -/
def runEngine (outcome : Nat → Outcome) (l : List (Nat × Job)) : List (Nat × Job) :=
  l.map (fun p => (p.1, applyOutcome (outcome p.1) p.2))

/-- A terminal status in the sense of §4.3: `SENT`, `FAILED` or `SKIPPED`. -/
def isTerminal : Status → Bool
  | Status.SENT => true
  | Status.FAILED => true
  | Status.SKIPPED => true
  | _ => false

/-!
## Concrete invocation environments used by the witnesses
-/

/-- A fully successful invocation with no image argument. -/
def envTextOnly : Env :=
  { argv := ["+1-555-0100", "hello"], createOk := true, createErr := "init failed",
    sendTextOk := true, textErr := "text failed", sendImageOk := true,
    imageErr := "image failed", fileExists := fun _ => true,
    resolve := fun s => "/work/" ++ s }

/-- An invocation with a local image path that does not exist. -/
def envMissingImage : Env :=
  { argv := ["+1-555-0100", "hello", "img.png"], createOk := true,
    createErr := "init failed", sendTextOk := true, textErr := "text failed",
    sendImageOk := true, imageErr := "image failed", fileExists := fun _ => false,
    resolve := fun s => "/work/" ++ s }

/-- A fully successful invocation with an existing local image. -/
def envLocalImage : Env :=
  { argv := ["+1-555-0100", "hello", "img.png"], createOk := true,
    createErr := "init failed", sendTextOk := true, textErr := "text failed",
    sendImageOk := true, imageErr := "image failed", fileExists := fun _ => true,
    resolve := fun s => "/work/" ++ s }

/-- A fully successful invocation with an `https://` image URL, on a
filesystem where no path exists. -/
def envUrlImage : Env :=
  { argv := ["+1-555-0100", "hello", "https://example.com/a/pic.jpg"],
    createOk := true, createErr := "init failed", sendTextOk := true,
    textErr := "text failed", sendImageOk := true, imageErr := "image failed",
    fileExists := fun _ => false, resolve := fun s => "/work/" ++ s }

/-- An invocation with a whitespace-only image argument. -/
def envBlankImage : Env :=
  { argv := ["+1-555-0100", "hello", "   "], createOk := true,
    createErr := "init failed", sendTextOk := true, textErr := "text failed",
    sendImageOk := true, imageErr := "image failed", fileExists := fun _ => false,
    resolve := fun s => "/work/" ++ s }

/-- An invocation with a single argument. -/
def envOneArg : Env :=
  { argv := ["+1-555-0100"], createOk := true, createErr := "init failed",
    sendTextOk := true, textErr := "text failed", sendImageOk := true,
    imageErr := "image failed", fileExists := fun _ => true,
    resolve := fun s => "/work/" ++ s }

/-- A queue of three pending jobs: rows 0 and 1 share `scheduled_at = 5`,
row 2 has a blank `scheduled_at`. -/
def jobsTied : List (Nat × Job) :=
  [(0, { recipient := "+1-555-0100", message := "Hello", image := none,
         scheduled_at := some 5, status := Status.PENDING, attempts := 0,
         last_error := none }),
   (1, { recipient := "5550101", message := "Hi", image := some "img.png",
         scheduled_at := some 5, status := Status.PENDING, attempts := 0,
         last_error := none }),
   (2, { recipient := "5550102", message := "Hey", image := none,
         scheduled_at := none, status := Status.PENDING, attempts := 0,
         last_error := none })]

/-- A Dispatch Gateway behaviour where the job of source row 1 fails and all
others succeed. -/
def outcomeRowOneFails : Nat → Outcome :=
  fun i => if i = 1 then { success := false, error := some "transport error" }
           else { success := true, error := none }

/-!
## Helper lemmas about the scheduled-mode selection loop
-/

theorem extractDue_isSome (x : Nat × Job) (xs : List (Nat × Job)) :
    (extractDue (x :: xs)).isSome = true := by
  simp only [extractDue]
  cases extractDue xs with
  | none => rfl
  | some p =>
    obtain ⟨m, rest⟩ := p
    dsimp only
    split <;> rfl

theorem extractDue_eq_none {l : List (Nat × Job)} (h : extractDue l = none) :
    l = [] := by
  cases l with
  | nil => rfl
  | cons x xs =>
    have hs := extractDue_isSome x xs
    rw [h] at hs
    simp at hs

theorem extractDue_perm :
    ∀ (l : List (Nat × Job)) (m : Nat × Job) (rest : List (Nat × Job)),
      extractDue l = some (m, rest) → l.Perm (m :: rest) := by
  intro l
  induction l with
  | nil => intro m rest h; simp [extractDue] at h
  | cons x xs ih =>
    intro m rest h
    simp only [extractDue] at h
    cases hx : extractDue xs with
    | none =>
      rw [hx] at h
      cases h
      have : xs = [] := extractDue_eq_none hx
      subst this
      exact List.Perm.refl _
    | some p =>
      obtain ⟨m₂, r₂⟩ := p
      rw [hx] at h
      dsimp only at h
      split at h
      · cases h
        exact ((ih m r₂ hx).cons x).trans (List.Perm.swap m x r₂)
      · cases h
        exact List.Perm.refl _

theorem extractDue_rest_sublist :
    ∀ (l : List (Nat × Job)) (m : Nat × Job) (rest : List (Nat × Job)),
      extractDue l = some (m, rest) → rest.Sublist l := by
  intro l
  induction l with
  | nil => intro m rest h; simp [extractDue] at h
  | cons x xs ih =>
    intro m rest h
    simp only [extractDue] at h
    cases hx : extractDue xs with
    | none =>
      rw [hx] at h
      cases h
      exact List.nil_sublist _
    | some p =>
      obtain ⟨m₂, r₂⟩ := p
      rw [hx] at h
      dsimp only at h
      split at h
      · cases h
        exact (ih m r₂ hx).cons₂ x
      · cases h
        exact List.sublist_cons_self x xs

theorem extractDue_min :
    ∀ (l : List (Nat × Job)) (m : Nat × Job) (rest : List (Nat × Job)),
      extractDue l = some (m, rest) → ∀ y ∈ rest, dueKey m.2 ≤ dueKey y.2 := by
  intro l
  induction l with
  | nil => intro m rest h; simp [extractDue] at h
  | cons x xs ih =>
    intro m rest h
    simp only [extractDue] at h
    cases hx : extractDue xs with
    | none =>
      rw [hx] at h
      cases h
      intro y hy
      simp at hy
    | some p =>
      obtain ⟨m₂, r₂⟩ := p
      rw [hx] at h
      dsimp only at h
      split at h
      · cases h
        intro y hy
        rcases List.mem_cons.mp hy with rfl | hy₂
        · exact Nat.le_of_lt (by assumption)
        · exact ih m r₂ hx y hy₂
      · cases h
        intro y hy
        have hxm : dueKey x.2 ≤ dueKey m₂.2 := Nat.not_lt.mp (by assumption)
        rcases List.mem_cons.mp ((extractDue_perm xs m₂ r₂ hx).mem_iff.mp hy) with rfl | hy₂
        · exact hxm
        · exact Nat.le_trans hxm (ih m₂ r₂ hx y hy₂)

theorem extractDue_first :
    ∀ (l : List (Nat × Job)), l.Pairwise (fun p q => p.1 < q.1) →
      ∀ (m : Nat × Job) (rest : List (Nat × Job)), extractDue l = some (m, rest) →
      ∀ y ∈ rest, dueKey y.2 = dueKey m.2 → m.1 < y.1 := by
  intro l
  induction l with
  | nil => intro _ m rest h; simp [extractDue] at h
  | cons x xs ih =>
    intro hp m rest h
    obtain ⟨hx_lt, hxs⟩ := List.pairwise_cons.mp hp
    simp only [extractDue] at h
    cases hx : extractDue xs with
    | none =>
      rw [hx] at h
      cases h
      intro y hy
      simp at hy
    | some p =>
      obtain ⟨m₂, r₂⟩ := p
      rw [hx] at h
      dsimp only at h
      split at h
      · cases h
        rename_i hlt
        intro y hy heq
        rcases List.mem_cons.mp hy with rfl | hy₂
        · rw [heq] at hlt
          exact absurd hlt (Nat.lt_irrefl _)
        · exact ih hxs m r₂ hx y hy₂ heq
      · cases h
        intro y hy _
        exact hx_lt y hy

theorem scheduledOrderAux_subset :
    ∀ (fuel : Nat) (l : List (Nat × Job)) (y : Nat × Job),
      y ∈ scheduledOrderAux fuel l → y ∈ l := by
  intro fuel
  induction fuel with
  | zero => intro l y hy; simp [scheduledOrderAux] at hy
  | succ fuel ih =>
    intro l y hy
    simp only [scheduledOrderAux] at hy
    cases hx : extractDue l with
    | none => rw [hx] at hy; simp at hy
    | some p =>
      obtain ⟨m, rest⟩ := p
      rw [hx] at hy
      have hperm := extractDue_perm l m rest hx
      rcases List.mem_cons.mp hy with rfl | hy₂
      · exact hperm.mem_iff.mpr (List.mem_cons_self _ _)
      · exact hperm.mem_iff.mpr (List.mem_cons_of_mem m (ih rest y hy₂))

theorem scheduledOrderAux_stable :
    ∀ (fuel : Nat) (l : List (Nat × Job)),
      l.Pairwise (fun p q => p.1 < q.1) →
      (scheduledOrderAux fuel l).Pairwise
        (fun p q => dueKey p.2 = dueKey q.2 → p.1 < q.1) := by
  intro fuel
  induction fuel with
  | zero => intro l _; simp [scheduledOrderAux]
  | succ fuel ih =>
    intro l hp
    simp only [scheduledOrderAux]
    cases hx : extractDue l with
    | none => simp
    | some p =>
      obtain ⟨m, rest⟩ := p
      dsimp only
      refine List.pairwise_cons.mpr ⟨?_, ih rest (hp.sublist (extractDue_rest_sublist l m rest hx))⟩
      intro z hz heq
      exact extractDue_first l hp m rest hx z (scheduledOrderAux_subset fuel rest z hz) heq.symm

/-!
## Claims about the dispatch command
-/

/-- C1: for every invocation of the dispatch command with at least two
positional arguments, the process exits with status 0 if and only if every
send step it attempts succeeds and no failure (initialization error,
transport error, or missing local image) occurs; on any failure it exits
with the non-zero status 1. -/
theorem exit_zero_iff_all_attempts_succeed (env : Env) (h : 2 ≤ env.argv.length) :
    ((runSendMessage env).exitCode = 0 ↔
      (runSendMessage env).delivered = (runSendMessage env).attempted ∧
      (runSendMessage env).errorMsg = none) ∧
    ((runSendMessage env).exitCode = 0 ∨ (runSendMessage env).exitCode = 1) := by
  match hargv : env.argv with
  | [] => rw [hargv] at h; simp at h
  | [a] => rw [hargv] at h; simp at h
  | a :: b :: rest =>
    cases hc : env.createOk <;> cases ht : env.sendTextOk <;>
      cases hr : rest.head? <;>
      simp [runSendMessage, hargv, hc, ht, hr, attemptImage]
    split_ifs <;> simp_all [attemptImage]

/-- C1 witness: the fully successful text-only invocation exits 0, and its
exit code is 0 or 1. -/
theorem exit_zero_iff_all_attempts_succeed_witness :
    ((runSendMessage envTextOnly).exitCode = 0 ↔
      (runSendMessage envTextOnly).delivered = (runSendMessage envTextOnly).attempted ∧
      (runSendMessage envTextOnly).errorMsg = none) ∧
    ((runSendMessage envTextOnly).exitCode = 0 ∨ (runSendMessage envTextOnly).exitCode = 1) :=
  exit_zero_iff_all_attempts_succeed envTextOnly (by decide)

/-- C2: a non-blank image argument that is not an `http(s)://` URL and whose
resolved local path does not exist makes the command report
`Image file not found: <resolved path>` through its catch handler and exit
with a non-zero status (given that initialization and the preceding text send
succeed, so the image step is reached). -/
theorem missing_local_image_fails_cleanly (env : Env) (phone message ip : String)
    (rest : List String)
    (hargv : env.argv = phone :: message :: ip :: rest)
    (hblank : jsTrim ip ≠ "")
    (hurl : isHttpUrl ip = false)
    (hexists : env.fileExists (env.resolve ip) = false)
    (hc : env.createOk = true) (ht : env.sendTextOk = true) :
    (runSendMessage env).errorMsg = some ("Image file not found: " ++ env.resolve ip) ∧
    (runSendMessage env).exitCode ≠ 0 := by
  simp [runSendMessage, hargv, hc, ht, hblank, hurl, hexists]

/-- C2 witness: the invocation with the nonexistent local image `img.png`
reports the resolved path and exits non-zero. -/
theorem missing_local_image_fails_cleanly_witness :
    (runSendMessage envMissingImage).errorMsg =
      some ("Image file not found: " ++ envMissingImage.resolve "img.png") ∧
    (runSendMessage envMissingImage).exitCode ≠ 0 :=
  missing_local_image_fails_cleanly envMissingImage "+1-555-0100" "hello" "img.png" []
    rfl (by decide) (by decide) rfl rfl rfl

/-- C3: every transport send of an invocation addresses the recipient
obtained by deleting every non-digit character from the raw phone argument
and appending `@c.us`; the raw phone string itself is unconstrained. -/
theorem recipient_is_normalized_phone (env : Env) (phone message : String)
    (rest : List String) (hargv : env.argv = phone :: message :: rest) :
    ((runSendMessage env).attempted).all
      (fun s => stepRecipient s == String.mk (phone.data.filter Char.isDigit) ++ "@c.us") =
      true := by
  cases hc : env.createOk <;> cases ht : env.sendTextOk <;>
    cases hr : rest.head? <;>
    simp [runSendMessage, hargv, hc, ht, hr, attemptImage, cleanPhone, stepRecipient]
  split_ifs <;>
    simp [attemptImage, cleanPhone, stepRecipient]

/-- C3 witness: the invocation with raw phone `+1-555-0100` addresses every
send to the digits-only recipient with the `@c.us` suffix. -/
theorem recipient_is_normalized_phone_witness :
    ((runSendMessage envLocalImage).attempted).all
      (fun s => stepRecipient s ==
        String.mk ("+1-555-0100".data.filter Char.isDigit) ++ "@c.us") = true :=
  recipient_is_normalized_phone envLocalImage "+1-555-0100" "hello" ["img.png"] rfl

/-!
## Claims about the scheduling engine (modelled from the spec)
-/

/-- C4: for any queue whose entries carry strictly increasing source row
indices, both execution modes dispatch two Jobs with equal `scheduled_at`
(including two blank ones) in source order: in each resulting dispatch
sequence, whenever two entries have equal `scheduled_at`, the entry with the
smaller row index comes first. Both orders are functions of the queue, so
the order under ties is deterministic. -/
theorem tie_break_is_source_order (l : List (Nat × Job))
    (hidx : l.Pairwise (fun p q => p.1 < q.1)) :
    (immediateOrder l).Pairwise
      (fun p q => p.2.scheduled_at = q.2.scheduled_at → p.1 < q.1) ∧
    (scheduledOrder l).Pairwise
      (fun p q => p.2.scheduled_at = q.2.scheduled_at → p.1 < q.1) := by
  constructor
  · exact hidx.imp (fun {p q} h => fun (_ : p.2.scheduled_at = q.2.scheduled_at) => h)
  · exact (scheduledOrderAux_stable l.length l hidx).imp
      (fun {p q} h => fun (heq : p.2.scheduled_at = q.2.scheduled_at) =>
        h (by simp [dueKey, heq]))

/-- C4 witness: on the three-job queue where rows 0 and 1 share a
`scheduled_at` and row 2 is blank, both mode orders dispatch ties in source
order. -/
theorem tie_break_is_source_order_witness :
    (immediateOrder jobsTied).Pairwise
      (fun p q => p.2.scheduled_at = q.2.scheduled_at → p.1 < q.1) ∧
    (scheduledOrder jobsTied).Pairwise
      (fun p q => p.2.scheduled_at = q.2.scheduled_at → p.1 < q.1) :=
  tie_break_is_source_order jobsTied (by decide)

/-- C5: a failed dispatch never halts the run: over any queue of pending
jobs, every queue entry is processed to a terminal status, the final report
has exactly one entry per queue entry, and an entry whose dispatch outcome is
a failure is marked `FAILED` with the outcome's error recorded in
`last_error` and the attempt counted. -/
theorem failed_dispatch_never_halts (outcome : Nat → Outcome) (l : List (Nat × Job))
    (hp : ∀ p ∈ l, p.2.status = Status.PENDING) :
    (∀ p ∈ runEngine outcome l, isTerminal p.2.status = true) ∧
    (runEngine outcome l).length = l.length ∧
    (∀ p ∈ l, (outcome p.1).success = false →
      (p.1,
        { p.2 with
            status := Status.FAILED,
            attempts := p.2.attempts + 1,
            last_error := (outcome p.1).error }) ∈ runEngine outcome l) := by
  refine ⟨?_, by simp [runEngine], ?_⟩
  · intro p hpm
    rw [runEngine, List.mem_map] at hpm
    obtain ⟨q, hq, rfl⟩ := hpm
    have hst := hp q hq
    simp only [applyOutcome, hst]
    cases hsucc : (outcome q.1).success <;> simp [isTerminal]
  · intro p hpl hfail
    rw [runEngine, List.mem_map]
    refine ⟨p, hpl, ?_⟩
    have hst := hp p hpl
    simp [applyOutcome, hst, hfail]

/-- C5 witness: with the gateway failing exactly on source row 1, the
three-job queue still processes every job to a terminal status, and row 1 is
reported `FAILED` with its transport error recorded. -/
theorem failed_dispatch_never_halts_witness :
    (∀ p ∈ runEngine outcomeRowOneFails jobsTied, isTerminal p.2.status = true) ∧
    (runEngine outcomeRowOneFails jobsTied).length = jobsTied.length ∧
    (∀ p ∈ jobsTied, (outcomeRowOneFails p.1).success = false →
      (p.1,
        { p.2 with
            status := Status.FAILED,
            attempts := p.2.attempts + 1,
            last_error := (outcomeRowOneFails p.1).error }) ∈
        runEngine outcomeRowOneFails jobsTied) :=
  failed_dispatch_never_halts outcomeRowOneFails jobsTied (by decide)

/-- C6: for a non-blank image argument, given that initialization and the
text send succeed so the image step is reached: an `http://` or `https://`
URL is passed to the image send unchanged with no local-file existence check
(for any state of the filesystem), while any other value is first resolved
to an absolute local path, and only that resolved path is checked for
existence and sent. -/
theorem image_reference_resolution (env : Env) (phone message ip : String)
    (rest : List String)
    (hargv : env.argv = phone :: message :: ip :: rest)
    (hblank : jsTrim ip ≠ "")
    (hc : env.createOk = true) (ht : env.sendTextOk = true) :
    (isHttpUrl ip = true →
      (runSendMessage env).attempted =
        [SendStep.text (cleanPhone phone) message,
         SendStep.image (cleanPhone phone) ip (basename ip) message]) ∧
    (isHttpUrl ip = false →
      (env.fileExists (env.resolve ip) = true →
        (runSendMessage env).attempted =
          [SendStep.text (cleanPhone phone) message,
           SendStep.image (cleanPhone phone) (env.resolve ip)
             (basename (env.resolve ip)) message]) ∧
      (env.fileExists (env.resolve ip) = false →
        (runSendMessage env).attempted = [SendStep.text (cleanPhone phone) message] ∧
        (runSendMessage env).exitCode ≠ 0)) := by
  constructor
  · intro hurl
    cases hi : env.sendImageOk <;>
      simp [runSendMessage, hargv, hc, ht, hblank, hurl, hi, attemptImage]
  · intro hurl
    constructor
    · intro hex
      cases hi : env.sendImageOk <;>
        simp [runSendMessage, hargv, hc, ht, hblank, hurl, hex, hi, attemptImage]
    · intro hex
      simp [runSendMessage, hargv, hc, ht, hblank, hurl, hex]

/-- C6 witness: the `https://` invocation sends the URL unchanged even though
no path exists on its filesystem. -/
theorem image_reference_resolution_witness :
    (isHttpUrl "https://example.com/a/pic.jpg" = true →
      (runSendMessage envUrlImage).attempted =
        [SendStep.text (cleanPhone "+1-555-0100") "hello",
         SendStep.image (cleanPhone "+1-555-0100") "https://example.com/a/pic.jpg"
           (basename "https://example.com/a/pic.jpg") "hello"]) ∧
    (isHttpUrl "https://example.com/a/pic.jpg" = false →
      (envUrlImage.fileExists (envUrlImage.resolve "https://example.com/a/pic.jpg") = true →
        (runSendMessage envUrlImage).attempted =
          [SendStep.text (cleanPhone "+1-555-0100") "hello",
           SendStep.image (cleanPhone "+1-555-0100")
             (envUrlImage.resolve "https://example.com/a/pic.jpg")
             (basename (envUrlImage.resolve "https://example.com/a/pic.jpg")) "hello"]) ∧
      (envUrlImage.fileExists (envUrlImage.resolve "https://example.com/a/pic.jpg") = false →
        (runSendMessage envUrlImage).attempted =
          [SendStep.text (cleanPhone "+1-555-0100") "hello"] ∧
        (runSendMessage envUrlImage).exitCode ≠ 0)) :=
  image_reference_resolution envUrlImage "+1-555-0100" "hello"
    "https://example.com/a/pic.jpg" [] rfl (by decide) rfl rfl

/-- C7: when the image argument is absent or blank after trimming, no image
send is attempted: the only transport send is the text one, and (with
initialization succeeding) the exit status is 0 exactly when the text send
succeeds, so an empty image never causes a failure. -/
theorem blank_image_no_image_send (env : Env) (phone message : String)
    (rest : List String) (hargv : env.argv = phone :: message :: rest)
    (hblank : rest.head?.all (fun ip => jsTrim ip == "") = true)
    (hc : env.createOk = true) :
    (runSendMessage env).attempted = [SendStep.text (cleanPhone phone) message] ∧
    ((runSendMessage env).exitCode = 0 ↔ env.sendTextOk = true) := by
  cases hr : rest.head? with
  | none =>
    cases ht : env.sendTextOk <;> simp [runSendMessage, hargv, hc, ht, hr]
  | some ip =>
    rw [hr] at hblank
    have hb : jsTrim ip = "" := by simpa using hblank
    cases ht : env.sendTextOk <;> simp [runSendMessage, hargv, hc, ht, hr, hb]

/-- C7 witness: the invocation whose image argument is three spaces attempts
only the text send and exits 0. -/
theorem blank_image_no_image_send_witness :
    (runSendMessage envBlankImage).attempted =
      [SendStep.text (cleanPhone "+1-555-0100") "hello"] ∧
    ((runSendMessage envBlankImage).exitCode = 0 ↔ envBlankImage.sendTextOk = true) :=
  blank_image_no_image_send envBlankImage "+1-555-0100" "hello" ["   "] rfl (by decide) rfl

/-- C8: an invocation with fewer than two positional arguments prints the
usage message and exits non-zero, without invoking `wa.create` and without
attempting any send. -/
theorem too_few_args_usage_exit (env : Env) (h : env.argv.length < 2) :
    (runSendMessage env).exitCode ≠ 0 ∧
    (runSendMessage env).usagePrinted = true ∧
    (runSendMessage env).createAttempted = false ∧
    (runSendMessage env).attempted = [] := by
  match hargv : env.argv with
  | [] => simp [runSendMessage, hargv]
  | [a] => simp [runSendMessage, hargv]
  | a :: b :: rest => rw [hargv] at h; simp at h; omega

/-- C8 witness: the single-argument invocation prints usage and exits
non-zero with no session and no sends. -/
theorem too_few_args_usage_exit_witness :
    (runSendMessage envOneArg).exitCode ≠ 0 ∧
    (runSendMessage envOneArg).usagePrinted = true ∧
    (runSendMessage envOneArg).createAttempted = false ∧
    (runSendMessage envOneArg).attempted = [] :=
  too_few_args_usage_exit envOneArg (by decide)

/-- C9: with a non-blank image argument and every step succeeding, the
message body is delivered twice to the recipient — first as the body of a
standalone text send and then as the caption of the image send — and the
text send precedes the image send. -/
theorem body_delivered_twice_text_first (env : Env) (phone message ip : String)
    (rest : List String)
    (hargv : env.argv = phone :: message :: ip :: rest)
    (hblank : jsTrim ip ≠ "")
    (hc : env.createOk = true) (ht : env.sendTextOk = true)
    (hi : env.sendImageOk = true)
    (hok : isHttpUrl ip = true ∨ env.fileExists (env.resolve ip) = true) :
    (runSendMessage env).delivered =
      [SendStep.text (cleanPhone phone) message,
       SendStep.image (cleanPhone phone)
         (if isHttpUrl ip then ip else env.resolve ip)
         (basename (if isHttpUrl ip then ip else env.resolve ip)) message] := by
  rcases hok with hurl | hex
  · simp [runSendMessage, hargv, hc, ht, hblank, hurl, hi, attemptImage]
  · cases hurl : isHttpUrl ip <;>
      simp [runSendMessage, hargv, hc, ht, hblank, hurl, hex, hi, attemptImage]

/-- C9 witness: the successful local-image invocation delivers the body as
text and again as the image caption, text first. -/
theorem body_delivered_twice_text_first_witness :
    (runSendMessage envLocalImage).delivered =
      [SendStep.text (cleanPhone "+1-555-0100") "hello",
       SendStep.image (cleanPhone "+1-555-0100")
         (if isHttpUrl "img.png" then "img.png" else envLocalImage.resolve "img.png")
         (basename (if isHttpUrl "img.png" then "img.png" else envLocalImage.resolve "img.png"))
         "hello"] :=
  body_delivered_twice_text_first envLocalImage "+1-555-0100" "hello" "img.png" [] rfl
    (by decide) rfl rfl rfl (Or.inr rfl)

/-- C10: a failing exit is not atomic with respect to delivery — whenever
initialization and the text send succeed but the invocation still exits
non-zero (a failing image step), the text message was already delivered. -/
theorem failure_exit_after_text_delivered (env : Env) (phone message : String)
    (rest : List String) (hargv : env.argv = phone :: message :: rest)
    (hc : env.createOk = true) (ht : env.sendTextOk = true)
    (hfail : (runSendMessage env).exitCode ≠ 0) :
    (runSendMessage env).delivered = [SendStep.text (cleanPhone phone) message] := by
  cases hr : rest.head? with
  | none => simp [runSendMessage, hargv, hc, ht, hr] at hfail
  | some ip =>
    by_cases hb : jsTrim ip = ""
    · simp [runSendMessage, hargv, hc, ht, hr, hb] at hfail
    · cases hurl : isHttpUrl ip with
      | true =>
        cases hi : env.sendImageOk with
        | true =>
          simp [runSendMessage, hargv, hc, ht, hr, hb, hurl, hi, attemptImage] at hfail
        | false =>
          simp [runSendMessage, hargv, hc, ht, hr, hb, hurl, hi, attemptImage]
      | false =>
        cases hex : env.fileExists (env.resolve ip) with
        | true =>
          cases hi : env.sendImageOk with
          | true =>
            simp [runSendMessage, hargv, hc, ht, hr, hb, hurl, hex, hi, attemptImage] at hfail
          | false =>
            simp [runSendMessage, hargv, hc, ht, hr, hb, hurl, hex, hi, attemptImage]
        | false => simp [runSendMessage, hargv, hc, ht, hr, hb, hurl, hex]

/-- C10 witness: the missing-image invocation exits non-zero although its
text message was delivered. -/
theorem failure_exit_after_text_delivered_witness :
    (runSendMessage envMissingImage).delivered =
      [SendStep.text (cleanPhone "+1-555-0100") "hello"] :=
  failure_exit_after_text_delivered envMissingImage "+1-555-0100" "hello" ["img.png"] rfl
    rfl rfl (by decide)
